import Mathlib

/-!
Verification of the Chrono::Vehicle steering controller family
(`ChSteeringController.cpp`): the base PID controller and the XT, SR and
Stanley path-following variants, shallowly embedded over real arithmetic.
C++ doubles are modelled as real numbers.  Helpers that live outside the
excerpted translation unit (world frame, clamp/signum/sine-step utilities,
PT1/PDT1 filters, the Bezier-curve tracker) are modelled from the
specification, as marked in their doc comments.
-/

namespace ChronoVehicle

noncomputable section

/-- A 3D vector of reals, modelling `chrono::ChVector<double>`. -/
@[ext]
structure Vec3 where
  x : ℝ
  y : ℝ
  z : ℝ

instance : Zero Vec3 := ⟨⟨0, 0, 0⟩⟩

instance : Add Vec3 := ⟨fun u v => ⟨u.x + v.x, u.y + v.y, u.z + v.z⟩⟩

instance : Sub Vec3 := ⟨fun u v => ⟨u.x - v.x, u.y - v.y, u.z - v.z⟩⟩

instance : Neg Vec3 := ⟨fun v => ⟨-v.x, -v.y, -v.z⟩⟩

instance : SMul ℝ Vec3 := ⟨fun a v => ⟨a * v.x, a * v.y, a * v.z⟩⟩

@[simp] theorem Vec3_zero_x : (0 : Vec3).x = 0 := rfl

@[simp] theorem Vec3_zero_y : (0 : Vec3).y = 0 := rfl

@[simp] theorem Vec3_zero_z : (0 : Vec3).z = 0 := rfl

@[simp] theorem Vec3_add_x (u v : Vec3) : (u + v).x = u.x + v.x := rfl

@[simp] theorem Vec3_add_y (u v : Vec3) : (u + v).y = u.y + v.y := rfl

@[simp] theorem Vec3_add_z (u v : Vec3) : (u + v).z = u.z + v.z := rfl

@[simp] theorem Vec3_sub_x (u v : Vec3) : (u - v).x = u.x - v.x := rfl

@[simp] theorem Vec3_sub_y (u v : Vec3) : (u - v).y = u.y - v.y := rfl

@[simp] theorem Vec3_sub_z (u v : Vec3) : (u - v).z = u.z - v.z := rfl

@[simp] theorem Vec3_neg_x (v : Vec3) : (-v).x = -v.x := rfl

@[simp] theorem Vec3_neg_y (v : Vec3) : (-v).y = -v.y := rfl

@[simp] theorem Vec3_neg_z (v : Vec3) : (-v).z = -v.z := rfl

@[simp] theorem Vec3_smul_x (a : ℝ) (v : Vec3) : (a • v).x = a * v.x := rfl

@[simp] theorem Vec3_smul_y (a : ℝ) (v : Vec3) : (a • v).y = a * v.y := rfl

@[simp] theorem Vec3_smul_z (a : ℝ) (v : Vec3) : (a • v).z = a * v.z := rfl

/-- Dot product `chrono::Vdot`. -/
def vdot (u v : Vec3) : ℝ := u.x * v.x + u.y * v.y + u.z * v.z

/-- Cross product `chrono::Vcross` (also the `%` operator on `ChVector`). -/
def vcross (u v : Vec3) : Vec3 :=
  ⟨u.y * v.z - u.z * v.y, u.z * v.x - u.x * v.z, u.x * v.y - u.y * v.x⟩

/-- Euclidean norm, `ChVector::Length`. -/
def vlen (v : Vec3) : ℝ := Real.sqrt (vdot v v)

/-- Modelled from the spec: `ChVector::Normalize` (header not in the excerpt)
scales a nonzero vector to unit length; the degenerate zero vector is replaced
by the unit x-vector (the source's guard against vanishing length). -/
def vnormalize (v : Vec3) : Vec3 := if vlen v = 0 then ⟨1, 0, 0⟩ else (1 / vlen v) • v

/-- Modelled from the spec: `ChWorldFrame::Forward()` in the default ISO
(Z-up) world frame. -/
def worldForward : Vec3 := ⟨1, 0, 0⟩

/-- Modelled from the spec: `ChWorldFrame::Vertical()` in the default ISO
(Z-up) world frame. -/
def worldVertical : Vec3 := ⟨0, 0, 1⟩

/-- Modelled from the spec: `ChWorldFrame::Project`, projection onto the
horizontal (ground) plane of the Z-up world frame. -/
def project (v : Vec3) : Vec3 := ⟨v.x, v.y, 0⟩

/-- Modelled from the spec: `ChWorldFrame::Height`, the vertical component. -/
def height (v : Vec3) : ℝ := v.z

/-- Modelled from the spec: `chrono::ChClamp(value, limitMin, limitMax)`
saturating clamp (header `ChMathematics.h` not in the excerpt). -/
def chClamp (v lo hi : ℝ) : ℝ := if v < lo then lo else if v > hi then hi else v

/-- Modelled from the spec: `chrono::ChSignum`, the sign of a real as a real
(header `ChMathematics.h` not in the excerpt). -/
def chSignum (x : ℝ) : ℝ := if 0 < x then 1 else if x < 0 then -1 else 0

/-- Modelled from the spec: `chrono::ChSineStep(x, x1, y1, x2, y2)`, the smooth
(sinusoidal) step used for the Stanley dead zone: `y1` below `x1`, `y2` above
`x2`, and a smooth monotone sinusoidal blend in between. -/
def chSineStep (x x1 y1 x2 y2 : ℝ) : ℝ :=
  if x ≤ x1 then y1
  else if x ≥ x2 then y2
  else
    y1 + (y2 - y1) * ((x - x1) / (x2 - x1)) -
      ((y2 - y1) / (2 * Real.pi)) * Real.sin (2 * Real.pi * (x - x1) / (x2 - x1))

/-- The kinematic state of the vehicle as consumed by the controllers:
`GetPos` (the chassis reference-frame origin), the chassis
reference-to-absolute rotation given by its three axis columns
(`GetRot().GetXaxis()` etc.), `GetSpeed`, and `GetPointVelocity(0,0,0)`. -/
structure VehicleState where
  pos : Vec3
  xAxis : Vec3
  yAxis : Vec3
  zAxis : Vec3
  speed : ℝ
  pointVel : Vec3

/-- `ChFrame::TransformPointLocalToParent` for the chassis REF-to-abs frame:
origin plus the rotated local point. -/
def vehTransform (veh : VehicleState) (p : Vec3) : Vec3 :=
  veh.pos + p.x • veh.xAxis + p.y • veh.yAxis + p.z • veh.zAxis

/-- A TNB frame as returned by the curve tracker: position plus the three
rotation axes (tangent, normal, binormal). -/
structure Frame where
  pos : Vec3
  xAxis : Vec3
  yAxis : Vec3
  zAxis : Vec3

/-- Modelled from the spec: rotation about the world vertical axis by an
angle, `ChMatrix33<>(theta, ChWorldFrame::Vertical())` applied to a vector
(matrix class not in the excerpt). -/
def rotVertical (theta : ℝ) (v : Vec3) : Vec3 :=
  ⟨Real.cos theta * v.x - Real.sin theta * v.y,
   Real.sin theta * v.x + Real.cos theta * v.y, v.z⟩

/-- `CH_C_DEG_TO_RAD`. -/
def degToRad : ℝ := Real.pi / 180

/-- The signed lateral error computed identically in the base, XT and Stanley
`Advance` methods: the length of the ground-projected sentinel-to-target
vector, signed by the vertical component of the cross product of the projected
sentinel and target vectors taken from the vehicle position. -/
def lateralError (sentinel target pos : Vec3) : ℝ :=
  let err_vec := project (target - sentinel)
  let sentinel_vec := project (sentinel - pos)
  let target_vec := project (target - pos)
  let temp := vdot (vcross sentinel_vec target_vec) worldVertical
  chSignum temp * vlen err_vec

/-- Mutable state of the base class `ChSteeringController` (the CSV logging
members, pure I/O, are omitted). -/
structure BaseState where
  m_dist : ℝ
  m_Kp : ℝ
  m_Ki : ℝ
  m_Kd : ℝ
  m_sentinel : Vec3
  m_target : Vec3
  m_err : ℝ
  m_erri : ℝ
  m_errd : ℝ

/-- Default constructor `ChSteeringController()`: zero look-ahead distance,
zero errors, and all-zero gains via `SetGains(0, 0, 0)`. -/
def mkChSteeringController : BaseState :=
  { m_dist := 0, m_Kp := 0, m_Ki := 0, m_Kd := 0,
    m_sentinel := 0, m_target := 0, m_err := 0, m_erri := 0, m_errd := 0 }

/-- The fields of the JSON document read by the base file constructor. -/
structure BaseDoc where
  Kp : ℝ
  Ki : ℝ
  Kd : ℝ
  lookaheadDistance : ℝ

/-- File constructor `ChSteeringController(const std::string&)`.  The parsed
document is `none` when the file is absent or malformed (`d.IsNull()`), in
which case the constructor returns early.  Its initializer list sets only the
error and sentinel members; `m_Kp`, `m_Ki`, `m_Kd` and `m_dist` are not
initialized on that path (the default constructor initializes them explicitly,
so there are no in-class initializers), which C++ leaves indeterminate; the
indeterminate values are modelled by the four explicit arguments. -/
def mkChSteeringControllerFromFile (doc : Option BaseDoc)
    (indetKp indetKi indetKd indetDist : ℝ) : BaseState :=
  match doc with
  | none =>
      { m_dist := indetDist, m_Kp := indetKp, m_Ki := indetKi, m_Kd := indetKd,
        m_sentinel := 0, m_target := 0, m_err := 0, m_erri := 0, m_errd := 0 }
  | some d =>
      { m_dist := d.lookaheadDistance, m_Kp := d.Kp, m_Ki := d.Ki, m_Kd := d.Kd,
        m_sentinel := 0, m_target := 0, m_err := 0, m_erri := 0, m_errd := 0 }

/-- `ChSteeringController::Reset`: recompute the sentinel from the vehicle
pose and zero the error states. -/
def ChSteeringController_Reset (s : BaseState) (veh : VehicleState) : BaseState :=
  { s with m_sentinel := vehTransform veh (s.m_dist • worldForward),
           m_err := 0, m_erri := 0, m_errd := 0 }

/-- `ChSteeringController::Advance`.  The virtual `CalcTargetLocation` is a
parameter `calcTarget` mapping the freshly computed sentinel to the target
(for the PID path variant it is the tracker's closest-point query, whose
implementation is outside the excerpt).  Returns the updated state and the
PID output. -/
def ChSteeringController_Advance (calcTarget : Vec3 → Vec3)
    (s : BaseState) (veh : VehicleState) (step : ℝ) : BaseState × ℝ :=
  let sentinel := vehTransform veh (s.m_dist • worldForward)
  let target := calcTarget sentinel
  let err := lateralError sentinel target veh.pos
  let errd := (err - s.m_err) / step
  let erri := s.m_erri + (err + s.m_err) * step / 2
  let s' := { s with m_sentinel := sentinel, m_target := target,
                     m_err := err, m_erri := erri, m_errd := errd }
  (s', s.m_Kp * err + s.m_Ki * erri + s.m_Kd * errd)

/-- Modelled from the spec: state of `chrono::utils::ChFilterPT1`, a
first-order (single-pole) low-pass lag filter with time constant `T1`,
discretized with the configured step (implementation not in the excerpt). -/
structure PT1State where
  step : ℝ
  T1 : ℝ
  y : ℝ

/-- Modelled from the spec: `ChFilterPT1::Config(step, T1)` stores the step
and time constant and zeroes the internal state. -/
def PT1config (step T1 : ℝ) : PT1State := ⟨step, T1, 0⟩

/-- Modelled from the spec: `ChFilterPT1::Filter(u)`, one step of the
backward-Euler discretized first-order lag
`y' = (T1*y + step*u) / (T1 + step)`. -/
def PT1filter (f : PT1State) (u : ℝ) : PT1State × ℝ :=
  let y := (f.T1 * f.y + f.step * u) / (f.T1 + f.step)
  (⟨f.step, f.T1, y⟩, y)

/-- Modelled from the spec: state of the PDT1 (proportional-derivative with
first-order delay) filter used for the XT lateral channel, configured via
`Config(step, Td, T1, Kp)` (implementation not in the excerpt). -/
structure PDT1State where
  step : ℝ
  Td : ℝ
  T1 : ℝ
  Kp : ℝ
  uOld : ℝ
  y : ℝ

/-- Modelled from the spec: `ChFilterPD1::Config(step, Td, T1, Kp)`. -/
def PDT1config (step Td T1 Kp : ℝ) : PDT1State := ⟨step, Td, T1, Kp, 0, 0⟩

/-- Modelled from the spec: one step of the discretized PDT1 filter, a PD
term `Kp*(u + Td*du)` passed through the first-order lag with constant `T1`:
`y' = (T1*y + Kp*(step*u + Td*(u - uOld))) / (T1 + step)`. -/
def PDT1filter (f : PDT1State) (u : ℝ) : PDT1State × ℝ :=
  let y := (f.T1 * f.y + f.Kp * (f.step * u + f.Td * (u - f.uOld))) / (f.T1 + f.step)
  ({ f with uOld := u, y := y }, y)

/-- Mutable state of `ChPathSteeringControllerXT` (inherited base members
included, logging omitted; `m_Kp` here is the XT-specific gain member). -/
structure XTState where
  m_dist : ℝ
  m_R_threshold : ℝ
  m_max_wheel_turn_angle : ℝ
  m_T1_delay : ℝ
  m_Kp : ℝ
  m_Wy : ℝ
  m_Wh : ℝ
  m_Wa : ℝ
  m_res : ℝ
  m_filters_initialized : Bool
  m_HeadErrDelay : PT1State
  m_AckermannAngleDelay : PT1State
  m_PathErrCtl : PDT1State
  m_sentinel : Vec3
  m_target : Vec3
  m_ptangent : Vec3
  m_pnormal : Vec3
  m_pbinormal : Vec3
  m_vel : Vec3
  m_pcurvature : ℝ

/-- Constructor `ChPathSteeringControllerXT(path, isClosedPath,
max_wheel_turn_angle)`: canonical filter constants, unit channel weights,
zero previous output; the argument overrides the default 25-degree maximum
wheel turn angle only when positive.  The base subobject is
default-constructed (zero look-ahead distance and errors); filter states are
zero-initialized placeholders until the lazy `Config` on the first
`Advance`. -/
def mkChPathSteeringControllerXT (max_wheel_turn_angle : ℝ) : XTState :=
  { m_dist := 0, m_R_threshold := 100000,
    m_max_wheel_turn_angle :=
      if max_wheel_turn_angle > 0 then max_wheel_turn_angle else 25 * degToRad,
    m_T1_delay := 30 / 1000, m_Kp := 0.4, m_Wy := 1, m_Wh := 1, m_Wa := 1,
    m_res := 0, m_filters_initialized := false,
    m_HeadErrDelay := ⟨0, 0, 0⟩, m_AckermannAngleDelay := ⟨0, 0, 0⟩,
    m_PathErrCtl := ⟨0, 0, 0, 0, 0, 0⟩,
    m_sentinel := 0, m_target := 0, m_ptangent := 0, m_pnormal := 0,
    m_pbinormal := 0, m_vel := 0, m_pcurvature := 0 }

/-- `ChPathSteeringControllerXT::CalcHeadingError(a, b)`: the member `m_vel`
is projected to the ground plane and normalized, and its length is then taken
as the speed; below 1 the (projected, normalized) chassis forward axis `a` is
paired with the normalized projected tangent `b`, otherwise the normalized
velocity is used; if the two unit vectors are at distance at least 1 the
tangent is negated before the cross product, and the result is the arcsine of
the vertical component of the cross product. -/
def XT_CalcHeadingError (vel a b : Vec3) : ℝ :=
  let v := vnormalize (project vel)
  let speed := vlen v
  let p := if speed < 1 then (vnormalize (project a), vnormalize (project b))
           else (v, vnormalize (project b))
  let ab := p.1 - p.2
  let vpc := if vlen ab < 1 then vcross p.1 p.2 else vcross p.1 (-p.2)
  Real.arcsin (height vpc)

/-- `ChPathSteeringControllerXT::CalcCurvatureCode(a, b)`: project and
normalize the vehicle-left and curve-center directions, return 0 when the
path curvature does not exceed `1/R_threshold`, else +1 (left bend) when the
two unit vectors are at distance below 1 and -1 (right bend) otherwise. -/
def XT_CalcCurvatureCode (R_threshold pcurvature : ℝ) (a b : Vec3) : ℤ :=
  let a1 := vnormalize (project a)
  let b1 := vnormalize (project b)
  let ltest := vlen (a1 - b1)
  if pcurvature ≤ 1 / R_threshold then 0
  else if ltest < 1 then 1
  else -1

/-- `ChPathSteeringControllerXT::CalcAckermannAngle()`:
`sin(m_res * m_max_wheel_turn_angle)`. -/
def XT_CalcAckermannAngle (s : XTState) : ℝ :=
  Real.sin (s.m_res * s.m_max_wheel_turn_angle)

/-- The blended weighted sum of the three filtered XT channels (the value
`res` in `ChPathSteeringControllerXT::Advance` before the counter-steer
clamp). -/
def XT_blend (s : XTState) (y_err_out h_err_out a_err_out : ℝ) : ℝ :=
  s.m_Wy * y_err_out + s.m_Wh * h_err_out + s.m_Wa * a_err_out

/-- The counter-steer clamp of `ChPathSteeringControllerXT::Advance`: the
blended result is clamped to [0,1] for curvature code +1, to [-1,0] for
code -1, and to [-1,1] otherwise. -/
def XT_counterSteerClamp (crvcode : ℤ) (res : ℝ) : ℝ :=
  if crvcode = 1 then chClamp res 0 1
  else if crvcode = -1 then chClamp res (-1) 0
  else chClamp res (-1) 1

/-- `ChPathSteeringControllerXT::Advance`.  The stateful curve tracker of
`CalcTargetLocation` is a parameter `tracker` mapping the sentinel to the
closest-point TNB frame and curvature.  Lazy filter configuration happens on
the first call; the three channels (lateral PDT1, heading PT1, Ackermann PT1)
are filtered, blended and clamped according to the curvature code; the result
is stored in `m_res` and returned. -/
def XT_Advance (tracker : Vec3 → Frame × ℝ)
    (s : XTState) (veh : VehicleState) (step : ℝ) : XTState × ℝ :=
  let sentinel := vehTransform veh (s.m_dist • worldForward)
  let vel := veh.pointVel
  let s1 :=
    if s.m_filters_initialized then s
    else { s with m_HeadErrDelay := PT1config step s.m_T1_delay,
                  m_AckermannAngleDelay := PT1config step s.m_T1_delay,
                  m_PathErrCtl := PDT1config step 0.3 0.15 s.m_Kp,
                  m_filters_initialized := true }
  let tc := tracker sentinel
  let target := tc.1.pos
  let ptangent := tc.1.xAxis
  let pnormal := tc.1.yAxis
  let pbinormal := tc.1.zAxis
  let pcurvature := tc.2
  let y_err := lateralError sentinel target veh.pos
  let pe := PDT1filter s1.m_PathErrCtl y_err
  let h_err := XT_CalcHeadingError vel veh.xAxis ptangent
  let he := PT1filter s1.m_HeadErrDelay h_err
  let a_err := XT_CalcAckermannAngle s1
  let ae := PT1filter s1.m_AckermannAngleDelay a_err
  let res := XT_blend s1 pe.2 he.2 ae.2
  let crvcode := XT_CalcCurvatureCode s1.m_R_threshold pcurvature veh.yAxis pnormal
  let newRes := XT_counterSteerClamp crvcode res
  ({ s1 with m_sentinel := sentinel, m_vel := vnormalize (project vel),
             m_target := target, m_ptangent := ptangent, m_pnormal := pnormal,
             m_pbinormal := pbinormal, m_pcurvature := pcurvature,
             m_PathErrCtl := pe.1, m_HeadErrDelay := he.1,
             m_AckermannAngleDelay := ae.1, m_res := newRes }, newRes)

/-- Mutable state of `ChPathSteeringControllerSR` (inherited base members
included, logging omitted). -/
structure SRState where
  m_dist : ℝ
  m_Kp : ℝ
  m_Ki : ℝ
  m_Kd : ℝ
  m_sentinel : Vec3
  m_target : Vec3
  m_err : ℝ
  m_erri : ℝ
  m_errd : ℝ
  m_isClosedPath : Bool
  m_Klat : ℝ
  m_Kug : ℝ
  m_Tp : ℝ
  m_L : ℝ
  m_delta : ℝ
  m_delta_max : ℝ
  m_umin : ℝ
  m_idx_curr : ℕ
  S_l : List Vec3
  R_l : List Vec3
  R_lu : List Vec3

/-- `ChPathSteeringControllerSR::CalcPathPoints`: from the path's control
points build the segment vectors `R_l` (last segment wrapping to the first
point when the path is closed, repeating the last segment direction when
open) and their normalizations `R_lu`. -/
def SR_CalcPathPoints (pts : List Vec3) (isClosedPath : Bool) : List Vec3 × List Vec3 :=
  let np := pts.length
  let seg : ℕ → Vec3 := fun i =>
    if i + 1 < np then pts.getD (i + 1) 0 - pts.getD i 0
    else if isClosedPath then pts.getD 0 0 - pts.getD (np - 1) 0
    else pts.getD (np - 1) 0 - pts.getD (np - 2) 0
  let R_l := (List.range np).map seg
  (R_l, R_l.map vnormalize)

/-- Constructor `ChPathSteeringControllerSR(path, isClosedPath,
max_wheel_turn_angle, axle_space)`: zero gains, preview time 0.5, minimum
speed 2, zero steering angle, and the precomputed path point arrays.  The
base subobject is default-constructed. -/
def mkChPathSteeringControllerSR (pts : List Vec3) (isClosedPath : Bool)
    (max_wheel_turn_angle axle_space : ℝ) : SRState :=
  { m_dist := 0, m_Kp := 0, m_Ki := 0, m_Kd := 0,
    m_sentinel := 0, m_target := 0, m_err := 0, m_erri := 0, m_errd := 0,
    m_isClosedPath := isClosedPath, m_Klat := 0, m_Kug := 0, m_Tp := 0.5,
    m_L := axle_space, m_delta := 0, m_delta_max := max_wheel_turn_angle,
    m_umin := 2, m_idx_curr := 0,
    S_l := pts, R_l := (SR_CalcPathPoints pts isClosedPath).1,
    R_lu := (SR_CalcPathPoints pts isClosedPath).2 }

/-- The fields of the JSON document read by the SR file constructor. -/
structure SRDoc where
  Klat : ℝ
  Kug : ℝ
  previewTime : ℝ

/-- File constructor `ChPathSteeringControllerSR(filename, path, isClosedPath,
max_wheel_turn_angle, axle_space)`: minimum speed 1 (not 2), and on a null
document (`none`) the constructor returns early with `m_Klat`, `m_Kug` and
`m_Tp` never initialized (the non-file constructor initializes them
explicitly, so there are no in-class initializers), which C++ leaves
indeterminate; the indeterminate values are modelled by the three explicit
arguments. -/
def mkChPathSteeringControllerSRFromFile (pts : List Vec3) (isClosedPath : Bool)
    (max_wheel_turn_angle axle_space : ℝ) (doc : Option SRDoc)
    (indetKlat indetKug indetTp : ℝ) : SRState :=
  let base : SRState :=
    { m_dist := 0, m_Kp := 0, m_Ki := 0, m_Kd := 0,
      m_sentinel := 0, m_target := 0, m_err := 0, m_erri := 0, m_errd := 0,
      m_isClosedPath := isClosedPath, m_Klat := indetKlat, m_Kug := indetKug,
      m_Tp := indetTp, m_L := axle_space, m_delta := 0,
      m_delta_max := max_wheel_turn_angle, m_umin := 1, m_idx_curr := 0,
      S_l := pts, R_l := (SR_CalcPathPoints pts isClosedPath).1,
      R_lu := (SR_CalcPathPoints pts isClosedPath).2 }
  match doc with
  | none => base
  | some d => { base with m_Klat := d.Klat, m_Kug := d.Kug, m_Tp := d.previewTime }

/-- `ChPathSteeringControllerSR::Reset`: the base-class reset of the sentinel
and error states, then both gains are zeroed. -/
def SR_Reset (s : SRState) (veh : VehicleState) : SRState :=
  { s with m_sentinel := vehTransform veh (s.m_dist • worldForward),
           m_err := 0, m_erri := 0, m_errd := 0, m_Klat := 0, m_Kug := 0 }

/-- `ChPathSteeringControllerSR::SetGains(Klat, Kug)`. -/
def SR_SetGains (s : SRState) (Klat Kug : ℝ) : SRState :=
  { s with m_Klat := |Klat|, m_Kug := chClamp Kug 0 5 }

/-- The per-index quantities of the SR segment search: `Pt` (sentinel minus
segment start), `rt` (segment length) and `t` (absolute projection of `Pt`
on the unit segment direction). -/
def SR_eval (S_l R_l R_lu : List Vec3) (sentinel : Vec3) (i : ℕ) : Vec3 × ℝ × ℝ :=
  let Pt := sentinel - S_l.getD i 0
  (Pt, vlen (R_l.getD i 0), |vdot Pt (R_lu.getD i 0)|)

/-- Result of the SR segment search: current index, `Pt` and `t`. -/
structure SRSearch where
  idx : ℕ
  Pt : Vec3
  t : ℝ

/-- The body of the `while (t > rt)` segment-advancing loop of
`ChPathSteeringControllerSR::Advance`: increment the index (wrapping to 0 for
closed paths, clamping to the last index for open ones), recompute, and for
closed paths keep going while `t > rt` (open paths break after one step).
The C++ loop can cycle indefinitely on a closed path none of whose segments
satisfies the exit test; the fuel argument bounds the iterations (one more
than the number of segments suffices for every property below, none of which
depends on the index reached). -/
def SR_loop (S_l R_l R_lu : List Vec3) (isClosedPath : Bool) (sentinel : Vec3) :
    ℕ → ℕ → SRSearch
  | 0, i =>
      let e := SR_eval S_l R_l R_lu sentinel i
      ⟨i, e.1, e.2.2⟩
  | fuel + 1, i =>
      let i1 := i + 1
      let i2 := if i1 = S_l.length then (if isClosedPath then 0 else S_l.length - 1) else i1
      let e := SR_eval S_l R_l R_lu sentinel i2
      if isClosedPath then
        if e.2.2 > e.2.1 then SR_loop S_l R_l R_lu isClosedPath sentinel fuel i2
        else ⟨i2, e.1, e.2.2⟩
      else ⟨i2, e.1, e.2.2⟩

/-- The segment search of `ChPathSteeringControllerSR::Advance`: evaluate at
the current index; when `t ≥ rt` run the advancing loop (which executes only
while `t > rt`). -/
def SR_find (S_l R_l R_lu : List Vec3) (isClosedPath : Bool) (sentinel : Vec3)
    (i0 : ℕ) : SRSearch :=
  let e := SR_eval S_l R_l R_lu sentinel i0
  if e.2.2 ≥ e.2.1 then
    if e.2.2 > e.2.1 then
      SR_loop S_l R_l R_lu isClosedPath sentinel (S_l.length + 1) i0
    else ⟨i0, e.1, e.2.2⟩
  else ⟨i0, e.1, e.2.2⟩

/-- The sentinel computation of `ChPathSteeringControllerSR::Advance`: with
zero steering angle a straight-line projection of the preview distance
`max(u, umin) * Tp`, otherwise the projection curved by the turn radius
`R = (L + deg2rad * Kug * u^2 / g) / delta` through a rotation about the
vertical axis. -/
def SR_sentinel (s : SRState) (veh : VehicleState) : Vec3 :=
  let g : ℝ := 9.81
  let u := veh.speed
  let n_g := vnormalize (project veh.yAxis)
  let ut := if u > s.m_umin then u else s.m_umin
  let factor := ut * s.m_Tp
  if s.m_delta = 0 then vehTransform veh (factor • worldForward)
  else
    let R := (s.m_L + degToRad * s.m_Kug * u * u / g) / s.m_delta
    let theta := u * s.m_Tp / R
    vehTransform veh (factor • worldForward) + R • (n_g - rotVertical theta n_g)

/-- `ChPathSteeringControllerSR::Advance`: compute the (possibly curved)
preview sentinel, advance the segment index, compute the target on the
current segment and the signed lateral error, integrate the steering angle
`delta` (clamped to the maximum wheel turn angle) only when the speed reaches
the minimum, and return `delta / delta_max`. -/
def SR_Advance (s : SRState) (veh : VehicleState) (_step : ℝ) : SRState × ℝ :=
  let u := veh.speed
  let sentinel := SR_sentinel s veh
  let sr := SR_find s.S_l s.R_l s.R_lu s.m_isClosedPath sentinel s.m_idx_curr
  let target := s.S_l.getD sr.idx 0 + sr.t • (s.R_lu.getD sr.idx 0)
  let n_lu := vcross (s.R_lu.getD sr.idx 0) worldVertical
  let err := vdot sr.Pt n_lu
  let delta :=
    if u ≥ s.m_umin then chClamp (s.m_delta + s.m_Klat * err) (-s.m_delta_max) s.m_delta_max
    else s.m_delta
  ({ s with m_sentinel := sentinel, m_idx_curr := sr.idx, m_target := target,
            m_err := err, m_delta := delta }, delta / s.m_delta_max)

/-- Mutable state of `ChPathSteeringControllerStanley` (inherited base
members included, logging omitted).  `m_delayFilter` is `none` until the
lazy construction on the first `Advance`. -/
structure StanleyState where
  m_dist : ℝ
  m_Kp : ℝ
  m_Ki : ℝ
  m_Kd : ℝ
  m_sentinel : Vec3
  m_target : Vec3
  m_err : ℝ
  m_erri : ℝ
  m_errd : ℝ
  m_isClosedPath : Bool
  m_delta : ℝ
  m_delta_max : ℝ
  m_umin : ℝ
  m_Treset : ℝ
  m_deadZone : ℝ
  m_Tdelay : ℝ
  m_ptangent : Vec3
  m_pcurvature : ℝ
  m_delayFilter : Option PT1State

/-- Constructor `ChPathSteeringControllerStanley(path, isClosedPath,
max_wheel_turn_angle)`: zero gains via `SetGains(0,0,0)`, reset timer 30,
zero dead zone, delay constant 0.4, minimum speed 1, no delay filter yet.
The base subobject is default-constructed. -/
def mkChPathSteeringControllerStanley (isClosedPath : Bool)
    (max_wheel_turn_angle : ℝ) : StanleyState :=
  { m_dist := 0, m_Kp := 0, m_Ki := 0, m_Kd := 0,
    m_sentinel := 0, m_target := 0, m_err := 0, m_erri := 0, m_errd := 0,
    m_isClosedPath := isClosedPath, m_delta := 0,
    m_delta_max := max_wheel_turn_angle, m_umin := 1, m_Treset := 30,
    m_deadZone := 0, m_Tdelay := 0.4, m_ptangent := 0, m_pcurvature := 0,
    m_delayFilter := none }

/-- `ChPathSteeringControllerStanley::SetGains(Kp, Ki, Kd)`: absolute
values. -/
def Stanley_SetGains (s : StanleyState) (Kp Ki Kd : ℝ) : StanleyState :=
  { s with m_Kp := |Kp|, m_Ki := |Ki|, m_Kd := |Kd| }

/-- `ChPathSteeringControllerStanley::CalcHeadingError(a, b)`: both vectors
projected to the ground plane and normalized; the arcsine of the vertical
component of their cross product. -/
def Stanley_CalcHeadingError (a b : Vec3) : ℝ :=
  let a1 := vnormalize (project a)
  let b1 := vnormalize (project b)
  Real.arcsin (height (vcross a1 b1))

/-- The dead-zone weight of `ChPathSteeringControllerStanley::Advance`:
`ChSineStep(|err|, deadZone, 0, 2*deadZone, 1)` when the dead zone is
positive, else 1. -/
def Stanley_deadZoneWeight (deadZone rawErr : ℝ) : ℝ :=
  if deadZone > 0 then chSineStep |rawErr| deadZone 0 (2 * deadZone) 1 else 1

/-- The effective lateral error used by the Stanley control law: the raw
signed lateral error scaled by the dead-zone weight. -/
def Stanley_effectiveError (deadZone rawErr : ℝ) : ℝ :=
  rawErr * Stanley_deadZoneWeight deadZone rawErr

/-- `ChPathSteeringControllerStanley::Advance`.  The curve tracker of
`CalcTargetLocation` is a parameter `tracker` mapping the sentinel to the
closest-point TNB frame and curvature.  The lateral error is attenuated by
the dead-zone weight, the integral updated by the trapezoidal rule, the
control law `delta = h_err + atan(Kp*err/clamp(u,umin,u)) + Kd*err_dot +
Ki*erri` is clamped (normalized by `delta_max`) to [-1,1], the reset timer is
decremented and on expiry the timer and the cached error `m_err` are reset,
and the result is passed through the lazily created reaction-delay PT1
filter. -/
def Stanley_Advance (tracker : Vec3 → Frame × ℝ)
    (s : StanleyState) (veh : VehicleState) (step : ℝ) : StanleyState × ℝ :=
  let fl := s.m_delayFilter.getD (PT1config step s.m_Tdelay)
  let u := veh.speed
  let sentinel := vehTransform veh (s.m_dist • worldForward)
  let tc := tracker sentinel
  let target := tc.1.pos
  let ptangent := tc.1.xAxis
  let pcurvature := tc.2
  let rawErr := lateralError sentinel target veh.pos
  let err := Stanley_effectiveError s.m_deadZone rawErr
  let err_dot := -u * Real.sin (Real.arctan (s.m_Kp * err / chClamp u s.m_umin u))
  let erri := s.m_erri + (err + s.m_err) * step / 2
  let h_err := Stanley_CalcHeadingError veh.xAxis ptangent
  let delta := h_err + Real.arctan (s.m_Kp * err / chClamp u s.m_umin u) +
    s.m_Kd * err_dot + s.m_Ki * erri
  let steer := chClamp (delta / s.m_delta_max) (-1) 1
  let tr := s.m_Treset - step
  let timerFired := tr ≤ 0
  let tr' := if timerFired then (30 : ℝ) else tr
  let errCache := if timerFired then (0 : ℝ) else err
  let fo := PT1filter fl steer
  ({ s with m_sentinel := sentinel, m_target := target, m_ptangent := ptangent,
            m_pcurvature := pcurvature, m_err := errCache, m_erri := erri,
            m_delta := delta, m_Treset := tr',
            m_delayFilter := some fo.1 }, fo.2)

/-! Helper lemmas. -/

theorem chClamp_le_right (v lo hi : ℝ) (h : lo ≤ hi) : chClamp v lo hi ≤ hi := by
  unfold chClamp
  split_ifs <;> linarith

theorem chClamp_ge_left (v lo hi : ℝ) (h : lo ≤ hi) : lo ≤ chClamp v lo hi := by
  unfold chClamp
  split_ifs <;> linarith

theorem chClamp_of_mem (v lo hi : ℝ) (h1 : lo ≤ v) (h2 : v ≤ hi) : chClamp v lo hi = v := by
  unfold chClamp
  split_ifs <;> linarith

theorem abs_chClamp_le_one (v lo hi : ℝ) (h1 : -1 ≤ lo) (h2 : lo ≤ hi) (h3 : hi ≤ 1) :
    |chClamp v lo hi| ≤ 1 := by
  rw [abs_le]
  exact ⟨le_trans h1 (chClamp_ge_left v lo hi h2), le_trans (chClamp_le_right v lo hi h2) h3⟩

theorem abs_XT_counterSteerClamp_le_one (c : ℤ) (r : ℝ) : |XT_counterSteerClamp c r| ≤ 1 := by
  unfold XT_counterSteerClamp
  split_ifs
  · exact abs_chClamp_le_one r 0 1 (by norm_num) (by norm_num) (by norm_num)
  · exact abs_chClamp_le_one r (-1) 0 (by norm_num) (by norm_num) (by norm_num)
  · exact abs_chClamp_le_one r (-1) 1 (by norm_num) (by norm_num) (by norm_num)

theorem abs_PT1filter_le_one (f : PT1State) (u : ℝ) (hstep : 0 < f.step)
    (hT1 : 0 ≤ f.T1) (hy : |f.y| ≤ 1) (hu : |u| ≤ 1) : |(PT1filter f u).2| ≤ 1 := by
  unfold PT1filter
  dsimp only
  rw [abs_div, abs_of_pos (by linarith : (0:ℝ) < f.T1 + f.step)]
  rw [div_le_one (by linarith : (0:ℝ) < f.T1 + f.step)]
  calc |f.T1 * f.y + f.step * u| ≤ |f.T1 * f.y| + |f.step * u| := abs_add _ _
    _ = f.T1 * |f.y| + f.step * |u| := by
        rw [abs_mul, abs_mul, abs_of_nonneg hT1, abs_of_pos hstep]
    _ ≤ f.T1 * 1 + f.step * 1 := by
        have := mul_le_mul_of_nonneg_left hy hT1
        have := mul_le_mul_of_nonneg_left hu (le_of_lt hstep)
        linarith
    _ = f.T1 + f.step := by ring

theorem real_sqrt_val (a b : ℝ) (hb : 0 ≤ b) (h : b ^ 2 = a) : Real.sqrt a = b := by
  rw [← h, Real.sqrt_sq hb]

/-! Concrete example inputs reused by witnesses and counterexamples. -/

/-- A vehicle at rest at the origin with the identity chassis rotation. -/
def vehAtOrigin : VehicleState := ⟨0, ⟨1, 0, 0⟩, ⟨0, 1, 0⟩, ⟨0, 0, 1⟩, 0, 0⟩

/-- A degenerate tracker whose closest point is the origin with the identity
TNB frame and zero curvature. -/
def trkZero : Vec3 → Frame × ℝ := fun _ => (⟨0, ⟨1, 0, 0⟩, ⟨0, 1, 0⟩, ⟨0, 0, 1⟩⟩, 0)

/-! Claim theorems. -/

/-- C4: for every call of the base controller's `Advance` with positive step,
the derivative state becomes `(err - err_prev)/step`, the integral state is
incremented by `(err + err_prev)*step/2` (trapezoidal rule), and the returned
value is `Kp*err + Ki*erri + Kd*errd` with the post-update states. -/
theorem base_advance_pid_update (calcTarget : Vec3 → Vec3) (s : BaseState)
    (veh : VehicleState) (step : ℝ) (hstep : 0 < step) :
    (ChSteeringController_Advance calcTarget s veh step).1.m_errd =
      (lateralError (vehTransform veh (s.m_dist • worldForward))
        (calcTarget (vehTransform veh (s.m_dist • worldForward))) veh.pos - s.m_err) / step ∧
    (ChSteeringController_Advance calcTarget s veh step).1.m_erri =
      s.m_erri + (lateralError (vehTransform veh (s.m_dist • worldForward))
        (calcTarget (vehTransform veh (s.m_dist • worldForward))) veh.pos + s.m_err) * step / 2 ∧
    (ChSteeringController_Advance calcTarget s veh step).2 =
      s.m_Kp * lateralError (vehTransform veh (s.m_dist • worldForward))
        (calcTarget (vehTransform veh (s.m_dist • worldForward))) veh.pos +
      s.m_Ki * (ChSteeringController_Advance calcTarget s veh step).1.m_erri +
      s.m_Kd * (ChSteeringController_Advance calcTarget s veh step).1.m_errd :=
  ⟨rfl, rfl, rfl⟩

/-- Witness for C4 at a concrete input. -/
theorem base_advance_pid_update_witness :
    (0:ℝ) < 1 ∧
    ((ChSteeringController_Advance (fun _ => ⟨1, 2, 0⟩) mkChSteeringController vehAtOrigin 1).1.m_errd =
      (lateralError (vehTransform vehAtOrigin (mkChSteeringController.m_dist • worldForward))
        ((fun _ => (⟨1, 2, 0⟩ : Vec3))
          (vehTransform vehAtOrigin (mkChSteeringController.m_dist • worldForward)))
        vehAtOrigin.pos - mkChSteeringController.m_err) / 1 ∧
    (ChSteeringController_Advance (fun _ => ⟨1, 2, 0⟩) mkChSteeringController vehAtOrigin 1).1.m_erri =
      mkChSteeringController.m_erri +
        (lateralError (vehTransform vehAtOrigin (mkChSteeringController.m_dist • worldForward))
          ((fun _ => (⟨1, 2, 0⟩ : Vec3))
            (vehTransform vehAtOrigin (mkChSteeringController.m_dist • worldForward)))
          vehAtOrigin.pos + mkChSteeringController.m_err) * 1 / 2 ∧
    (ChSteeringController_Advance (fun _ => ⟨1, 2, 0⟩) mkChSteeringController vehAtOrigin 1).2 =
      mkChSteeringController.m_Kp *
        lateralError (vehTransform vehAtOrigin (mkChSteeringController.m_dist • worldForward))
          ((fun _ => (⟨1, 2, 0⟩ : Vec3))
            (vehTransform vehAtOrigin (mkChSteeringController.m_dist • worldForward)))
          vehAtOrigin.pos +
      mkChSteeringController.m_Ki *
        (ChSteeringController_Advance (fun _ => ⟨1, 2, 0⟩) mkChSteeringController vehAtOrigin 1).1.m_erri +
      mkChSteeringController.m_Kd *
        (ChSteeringController_Advance (fun _ => ⟨1, 2, 0⟩) mkChSteeringController vehAtOrigin 1).1.m_errd) :=
  ⟨by norm_num,
   base_advance_pid_update (fun _ => ⟨1, 2, 0⟩) mkChSteeringController vehAtOrigin 1 (by norm_num)⟩

/-- C1 (amended): the XT, SR and Stanley `Advance` outputs lie in [-1, 1]
(for SR given a positive maximum wheel turn angle and the steering-angle
invariant `|delta| ≤ delta_max`; for Stanley given a positive step, a
nonnegative delay constant and a delay-filter state in [-1, 1]); the base/PID
`Advance` returns the raw PID sum, which is not clamped (see the
counterexample). -/
theorem steering_advance_output_bounded (trk : Vec3 → Frame × ℝ) (sx : XTState)
    (ss : SRState) (sst : StanleyState) (veh : VehicleState) (step : ℝ)
    (hdm : 0 < ss.m_delta_max) (hd : |ss.m_delta| ≤ ss.m_delta_max)
    (hstep : 0 < step) (htd : 0 ≤ sst.m_Tdelay)
    (hf : ∀ f, sst.m_delayFilter = some f → 0 < f.step ∧ 0 ≤ f.T1 ∧ |f.y| ≤ 1) :
    |(XT_Advance trk sx veh step).2| ≤ 1 ∧
    |(SR_Advance ss veh step).2| ≤ 1 ∧
    |(Stanley_Advance trk sst veh step).2| ≤ 1 := by
  refine ⟨?_, ?_, ?_⟩
  · simp only [XT_Advance]
    exact abs_XT_counterSteerClamp_le_one _ _
  · simp only [SR_Advance]
    have hdelta : |(if veh.speed ≥ ss.m_umin then
        chClamp (ss.m_delta + ss.m_Klat * vdot (SR_find ss.S_l ss.R_l ss.R_lu
          ss.m_isClosedPath (SR_sentinel ss veh) ss.m_idx_curr).Pt
          (vcross (ss.R_lu.getD (SR_find ss.S_l ss.R_l ss.R_lu ss.m_isClosedPath
            (SR_sentinel ss veh) ss.m_idx_curr).idx 0) worldVertical))
          (-ss.m_delta_max) ss.m_delta_max
        else ss.m_delta)| ≤ ss.m_delta_max := by
      split_ifs
      · rw [abs_le]
        exact ⟨chClamp_ge_left _ _ _ (by linarith), chClamp_le_right _ _ _ (by linarith)⟩
      · exact hd
    rw [abs_div, abs_of_pos hdm, div_le_one hdm]
    exact hdelta
  · simp only [Stanley_Advance]
    apply abs_PT1filter_le_one
    · rcases h : sst.m_delayFilter with _ | f
      · simp [h, PT1config]
        exact hstep
      · simp [h]
        exact (hf f h).1
    · rcases h : sst.m_delayFilter with _ | f
      · simp [h, PT1config]
        exact htd
      · simp [h]
        exact (hf f h).2.1
    · rcases h : sst.m_delayFilter with _ | f
      · simp [h, PT1config]
      · simp [h]
        exact (hf f h).2.2
    · exact abs_chClamp_le_one _ _ _ (by norm_num) (by norm_num) (by norm_num)

/-- Witness for C1 at concrete inputs. -/
theorem steering_advance_output_bounded_witness :
    (0:ℝ) < (mkChPathSteeringControllerSR [] false 1 2).m_delta_max ∧
    |(mkChPathSteeringControllerSR [] false 1 2).m_delta| ≤
      (mkChPathSteeringControllerSR [] false 1 2).m_delta_max ∧
    (0:ℝ) < 1 ∧ (0:ℝ) ≤ (mkChPathSteeringControllerStanley false 1).m_Tdelay ∧
    (|(XT_Advance trkZero (mkChPathSteeringControllerXT 1) vehAtOrigin 1).2| ≤ 1 ∧
     |(SR_Advance (mkChPathSteeringControllerSR [] false 1 2) vehAtOrigin 1).2| ≤ 1 ∧
     |(Stanley_Advance trkZero (mkChPathSteeringControllerStanley false 1) vehAtOrigin 1).2| ≤ 1) := by
  refine ⟨?_, ?_, ?_, ?_, ?_⟩
  · norm_num [mkChPathSteeringControllerSR]
  · norm_num [mkChPathSteeringControllerSR]
  · norm_num
  · norm_num [mkChPathSteeringControllerStanley]
  · exact steering_advance_output_bounded trkZero (mkChPathSteeringControllerXT 1)
      (mkChPathSteeringControllerSR [] false 1 2) (mkChPathSteeringControllerStanley false 1)
      vehAtOrigin 1
      (by norm_num [mkChPathSteeringControllerSR])
      (by norm_num [mkChPathSteeringControllerSR])
      (by norm_num)
      (by norm_num [mkChPathSteeringControllerStanley])
      (fun f h => by simp [mkChPathSteeringControllerStanley] at h)

/-- The base state used by the counterexample for C1: unit proportional gain,
unit look-ahead distance, everything else at the constructor defaults. -/
def baseC1 : BaseState := { mkChSteeringController with m_dist := 1, m_Kp := 1 }

/-- Counterexample for C1: with a plain proportional controller (Kp = 1) and a
target two units to the left of the sentinel (the closest point of a
non-degenerate path lying two units off to the side), the base/PID `Advance`
returns 2, outside [-1, 1]. -/
theorem base_advance_exceeds_unit_interval :
    (ChSteeringController_Advance (fun _ => ⟨1, 2, 0⟩) baseC1 vehAtOrigin 1).2 = 2 ∧
    ¬ |(ChSteeringController_Advance (fun _ => ⟨1, 2, 0⟩) baseC1 vehAtOrigin 1).2| ≤ 1 := by
  have hout : (ChSteeringController_Advance (fun _ => ⟨1, 2, 0⟩) baseC1 vehAtOrigin 1).2 = 2 := by
    have hlen : vlen ⟨0, 2, 0⟩ = 2 := by
      unfold vlen vdot
      exact real_sqrt_val _ 2 (by norm_num) (by norm_num)
    simp only [ChSteeringController_Advance, lateralError, baseC1, mkChSteeringController,
      vehAtOrigin, vehTransform, project, vdot, vcross, chSignum, worldForward, worldVertical]
    norm_num
    rw [show (⟨0, 2, 0⟩ : Vec3) = ({ x := 0, y := 2, z := 0 } : Vec3) from rfl] at hlen
    norm_num [hlen]
  refine ⟨hout, ?_⟩
  rw [hout]
  norm_num

theorem XT_Advance_res_shape (trk : Vec3 → Frame × ℝ) (s : XTState)
    (veh : VehicleState) (step : ℝ) :
    (XT_Advance trk s veh step).1.m_res = (XT_Advance trk s veh step).2 ∧
    ∃ res, (XT_Advance trk s veh step).2 =
        XT_counterSteerClamp
          (XT_CalcCurvatureCode s.m_R_threshold
            (trk (vehTransform veh (s.m_dist • worldForward))).2 veh.yAxis
            (trk (vehTransform veh (s.m_dist • worldForward))).1.yAxis) res := by
  cases hfi : s.m_filters_initialized
  · constructor
    · simp [XT_Advance, hfi]
    · simp only [XT_Advance, hfi, Bool.false_eq_true, if_false]
      exact ⟨_, rfl⟩
  · constructor
    · simp [XT_Advance, hfi]
    · simp only [XT_Advance, hfi, if_true]
      exact ⟨_, rfl⟩

/-- C5: the blended XT output is clamped according to the curvature code
before being returned and stored (code +1: [0,1]; code -1: [-1,0]; code 0:
[-1,1]), and the curvature code is 0 whenever the path curvature is at most
`1/R_threshold`. -/
theorem xt_output_clamped_by_curvature_code (trk : Vec3 → Frame × ℝ) (s : XTState)
    (veh : VehicleState) (step : ℝ) :
    ((XT_Advance trk s veh step).2 = (XT_Advance trk s veh step).1.m_res) ∧
    (XT_CalcCurvatureCode s.m_R_threshold
        (trk (vehTransform veh (s.m_dist • worldForward))).2 veh.yAxis
        (trk (vehTransform veh (s.m_dist • worldForward))).1.yAxis = 1 →
      0 ≤ (XT_Advance trk s veh step).2 ∧ (XT_Advance trk s veh step).2 ≤ 1) ∧
    (XT_CalcCurvatureCode s.m_R_threshold
        (trk (vehTransform veh (s.m_dist • worldForward))).2 veh.yAxis
        (trk (vehTransform veh (s.m_dist • worldForward))).1.yAxis = -1 →
      -1 ≤ (XT_Advance trk s veh step).2 ∧ (XT_Advance trk s veh step).2 ≤ 0) ∧
    (XT_CalcCurvatureCode s.m_R_threshold
        (trk (vehTransform veh (s.m_dist • worldForward))).2 veh.yAxis
        (trk (vehTransform veh (s.m_dist • worldForward))).1.yAxis = 0 →
      -1 ≤ (XT_Advance trk s veh step).2 ∧ (XT_Advance trk s veh step).2 ≤ 1) ∧
    ((trk (vehTransform veh (s.m_dist • worldForward))).2 ≤ 1 / s.m_R_threshold →
      XT_CalcCurvatureCode s.m_R_threshold
        (trk (vehTransform veh (s.m_dist • worldForward))).2 veh.yAxis
        (trk (vehTransform veh (s.m_dist • worldForward))).1.yAxis = 0) := by
  obtain ⟨hstored, res, hres⟩ := XT_Advance_res_shape trk s veh step
  refine ⟨hstored.symm, ?_, ?_, ?_, ?_⟩
  · intro h
    rw [hres, h]
    simp only [XT_counterSteerClamp, if_pos rfl]
    exact ⟨chClamp_ge_left _ _ _ (by norm_num), chClamp_le_right _ _ _ (by norm_num)⟩
  · intro h
    rw [hres, h]
    simp only [XT_counterSteerClamp]
    norm_num
    exact ⟨chClamp_ge_left _ _ _ (by norm_num), chClamp_le_right _ _ _ (by norm_num)⟩
  · intro h
    rw [hres, h]
    simp only [XT_counterSteerClamp]
    norm_num
    exact ⟨chClamp_ge_left _ _ _ (by norm_num), chClamp_le_right _ _ _ (by norm_num)⟩
  · intro h
    simp only [XT_CalcCurvatureCode]
    rw [if_pos h]

/-- Witness for C5 at concrete inputs: the degenerate tracker reports zero
curvature, so the curvature code is 0 and the output lies in [-1, 1]. -/
theorem xt_output_clamped_by_curvature_code_witness :
    ((trkZero (vehTransform vehAtOrigin
        ((mkChPathSteeringControllerXT 1).m_dist • worldForward))).2 ≤
      1 / (mkChPathSteeringControllerXT 1).m_R_threshold) ∧
    (XT_CalcCurvatureCode (mkChPathSteeringControllerXT 1).m_R_threshold
      (trkZero (vehTransform vehAtOrigin
        ((mkChPathSteeringControllerXT 1).m_dist • worldForward))).2 vehAtOrigin.yAxis
      (trkZero (vehTransform vehAtOrigin
        ((mkChPathSteeringControllerXT 1).m_dist • worldForward))).1.yAxis = 0) ∧
    (-1 ≤ (XT_Advance trkZero (mkChPathSteeringControllerXT 1) vehAtOrigin 1).2 ∧
      (XT_Advance trkZero (mkChPathSteeringControllerXT 1) vehAtOrigin 1).2 ≤ 1) := by
  have hcur : (trkZero (vehTransform vehAtOrigin
      ((mkChPathSteeringControllerXT 1).m_dist • worldForward))).2 ≤
      1 / (mkChPathSteeringControllerXT 1).m_R_threshold := by
    norm_num [trkZero, mkChPathSteeringControllerXT]
  have h0 := (xt_output_clamped_by_curvature_code trkZero (mkChPathSteeringControllerXT 1)
    vehAtOrigin 1).2.2.2.2 hcur
  exact ⟨hcur, h0,
    (xt_output_clamped_by_curvature_code trkZero (mkChPathSteeringControllerXT 1)
      vehAtOrigin 1).2.2.2.1 h0⟩

/-- C9: `Reset` on the SR variant zeroes both gains `Klat` and `Kug` in
addition to the base-class reset of the sentinel and error states (leaving
`delta` untouched), and with `Klat = 0` a subsequent `Advance` leaves the
steering-angle state `delta` (and the zeroed gains) unchanged. -/
theorem sr_reset_zeroes_gains_and_freezes_delta (s : SRState) (veh : VehicleState)
    (step : ℝ) (hk : s.m_Klat = 0) (hd : |s.m_delta| ≤ s.m_delta_max) :
    ((SR_Reset s veh).m_Klat = 0 ∧ (SR_Reset s veh).m_Kug = 0 ∧
     (SR_Reset s veh).m_err = 0 ∧ (SR_Reset s veh).m_erri = 0 ∧
     (SR_Reset s veh).m_errd = 0 ∧
     (SR_Reset s veh).m_sentinel = vehTransform veh (s.m_dist • worldForward) ∧
     (SR_Reset s veh).m_delta = s.m_delta) ∧
    ((SR_Advance s veh step).1.m_delta = s.m_delta ∧
     (SR_Advance s veh step).1.m_Klat = s.m_Klat ∧
     (SR_Advance s veh step).1.m_Kug = s.m_Kug) := by
  constructor
  · exact ⟨rfl, rfl, rfl, rfl, rfl, rfl, rfl⟩
  · refine ⟨?_, rfl, rfl⟩
    simp only [SR_Advance]
    split_ifs
    · rw [hk]
      ring_nf
      have := abs_le.mp hd
      exact chClamp_of_mem _ _ _ (by linarith) (by linarith)
    · rfl

/-- Witness for C9 at a concrete input: a freshly constructed SR controller
has `Klat = 0` and `delta = 0`. -/
theorem sr_reset_zeroes_gains_and_freezes_delta_witness :
    ((mkChPathSteeringControllerSR [] false 1 2).m_Klat = 0 ∧
     |(mkChPathSteeringControllerSR [] false 1 2).m_delta| ≤
       (mkChPathSteeringControllerSR [] false 1 2).m_delta_max) ∧
    ((SR_Reset (mkChPathSteeringControllerSR [] false 1 2) vehAtOrigin).m_Klat = 0 ∧
     (SR_Advance (mkChPathSteeringControllerSR [] false 1 2) vehAtOrigin 1).1.m_delta =
       (mkChPathSteeringControllerSR [] false 1 2).m_delta) := by
  have h := sr_reset_zeroes_gains_and_freezes_delta (mkChPathSteeringControllerSR [] false 1 2)
    vehAtOrigin 1 (by norm_num [mkChPathSteeringControllerSR])
    (by norm_num [mkChPathSteeringControllerSR])
  exact ⟨⟨by norm_num [mkChPathSteeringControllerSR],
          by norm_num [mkChPathSteeringControllerSR]⟩, ⟨h.1.1, h.2.1⟩⟩

theorem vlen_mk (a b c : ℝ) : vlen ⟨a, b, c⟩ = Real.sqrt (a * a + b * b + c * c) := rfl

theorem vnormalize_of_len (v : Vec3) (l : ℝ) (hl : vlen v = l) (h0 : l ≠ 0) :
    vnormalize v = (1 / l) • v := by
  unfold vnormalize
  rw [hl, if_neg h0]

/-- The Stanley state used by the C2 counterexample: a freshly constructed
controller whose integral state is 5 and whose reset timer is about to
expire. -/
def stanleyC2 : StanleyState :=
  { mkChPathSteeringControllerStanley false 1 with m_erri := 5, m_Treset := 1/10 }

/-- C2: evaluation at a concrete input where the Stanley reset timer expires
(`Treset = 1/10`, `step = 1/5`): the code resets the timer to 30 and zeroes
the cached previous error `m_err`, but leaves the accumulated integral error
state `m_erri` unchanged at 5, contradicting the claim (and the code's own
anti-windup comment, which says the integral state is reset). -/
theorem stanley_timer_reset_leaves_integral :
    (Stanley_Advance trkZero stanleyC2 vehAtOrigin (1/5)).1.m_Treset = 30 ∧
    (Stanley_Advance trkZero stanleyC2 vehAtOrigin (1/5)).1.m_err = 0 ∧
    (Stanley_Advance trkZero stanleyC2 vehAtOrigin (1/5)).1.m_erri = 5 ∧
    (5 : ℝ) ≠ 0 := by
  have hz : vlen (⟨0, 0, 0⟩ : Vec3) = 0 := by
    rw [vlen_mk]
    norm_num
  refine ⟨?_, ?_, ?_, by norm_num⟩ <;>
  · simp only [Stanley_Advance, stanleyC2, mkChPathSteeringControllerStanley, vehAtOrigin,
      trkZero, lateralError, Stanley_effectiveError, Stanley_deadZoneWeight, vehTransform,
      project, vdot, vcross, chSignum, chClamp, worldForward, worldVertical]
    norm_num [hz]

/-- C3: evaluation of the XT heading error at a vehicle moving sideways at
speed 1/2 (velocity (0, 1/2, 0)) with chassis forward axis (1,0,0) and path
tangent (1,0,0).  Because the code normalizes the projected velocity before
measuring the speed, the measured speed is 1 and the velocity-direction
branch is taken even though the vehicle's speed is below 1; the flip test
then fires (distance sqrt 2 ≥ 1) and the result is `asin(1) = π/2`.  The
claim (and the code's own standing-still comment) requires the
chassis-forward branch, which would give 0. -/
theorem xt_heading_error_ignores_true_speed :
    XT_CalcHeadingError ⟨0, 1/2, 0⟩ ⟨1, 0, 0⟩ ⟨1, 0, 0⟩ = Real.pi / 2 ∧
    Real.pi / 2 ≠ (0 : ℝ) := by
  constructor
  · have hp : project ⟨0, 1/2, 0⟩ = ⟨0, 1/2, 0⟩ := rfl
    have hlv : vlen (⟨0, 1/2, 0⟩ : Vec3) = 1/2 := by
      rw [vlen_mk]
      exact real_sqrt_val _ _ (by norm_num) (by norm_num)
    have hv : vnormalize (project ⟨0, 1/2, 0⟩) = ⟨0, 1, 0⟩ := by
      rw [hp, vnormalize_of_len _ _ hlv (by norm_num)]
      ext <;> simp <;> norm_num
    have hb : vnormalize (project ⟨1, 0, 0⟩) = ⟨1, 0, 0⟩ := by
      have hl1 : vlen (⟨1, 0, 0⟩ : Vec3) = 1 := by
        rw [vlen_mk]
        exact real_sqrt_val _ _ (by norm_num) (by norm_num)
      rw [show project ⟨1, 0, 0⟩ = (⟨1, 0, 0⟩ : Vec3) from rfl,
        vnormalize_of_len _ _ hl1 (by norm_num)]
      ext <;> simp
    have hlu : vlen (⟨0, 1, 0⟩ : Vec3) = 1 := by
      rw [vlen_mk]
      exact real_sqrt_val _ _ (by norm_num) (by norm_num)
    have hlab : vlen ((⟨0, 1, 0⟩ : Vec3) - ⟨1, 0, 0⟩) = Real.sqrt 2 := by
      rw [show (⟨0, 1, 0⟩ : Vec3) - ⟨1, 0, 0⟩ = (⟨-1, 1, 0⟩ : Vec3) from by ext <;> simp,
        vlen_mk]
      norm_num
    have hsqrt2 : ¬ (Real.sqrt 2 < 1) := by
      push_neg
      rw [show (1:ℝ) = Real.sqrt 1 from (Real.sqrt_one).symm]
      exact Real.sqrt_le_sqrt (by norm_num)
    unfold XT_CalcHeadingError
    rw [hv]
    simp only [hb, hlu]
    rw [if_neg (lt_irrefl (1:ℝ))]
    dsimp only
    rw [hlab, if_neg hsqrt2]
    have hcross : vcross ⟨0, 1, 0⟩ (-(⟨1, 0, 0⟩ : Vec3)) = ⟨0, 0, 1⟩ := by
      ext <;> simp [vcross]
    rw [hcross]
    simpa [height] using Real.arcsin_one
  · positivity

theorem sinStepBounds (t : ℝ) (h0 : 0 < t) (h1 : t < 1) :
    0 < t - 1 / (2 * Real.pi) * Real.sin (2 * Real.pi * t) ∧
    t - 1 / (2 * Real.pi) * Real.sin (2 * Real.pi * t) < 1 := by
  have hπ := Real.pi_pos
  constructor
  · have hs1 : Real.sin (2 * Real.pi * t) < 2 * Real.pi * t := Real.sin_lt (by positivity)
    have h2 : 1 / (2 * Real.pi) * Real.sin (2 * Real.pi * t) <
        1 / (2 * Real.pi) * (2 * Real.pi * t) :=
      mul_lt_mul_of_pos_left hs1 (by positivity)
    have h3 : 1 / (2 * Real.pi) * (2 * Real.pi * t) = t := by
      field_simp
    linarith
  · have hu : 0 < 1 - t := by linarith
    have hs2 : Real.sin (2 * Real.pi * (1 - t)) < 2 * Real.pi * (1 - t) :=
      Real.sin_lt (by positivity)
    have hid : Real.sin (2 * Real.pi * t) = -Real.sin (2 * Real.pi * (1 - t)) := by
      have harg : 2 * Real.pi * t = 2 * Real.pi - 2 * Real.pi * (1 - t) := by ring
      rw [harg, Real.sin_sub, Real.sin_two_pi, Real.cos_two_pi]
      ring
    have h2 : 1 / (2 * Real.pi) * Real.sin (2 * Real.pi * (1 - t)) <
        1 / (2 * Real.pi) * (2 * Real.pi * (1 - t)) :=
      mul_lt_mul_of_pos_left hs2 (by positivity)
    have h3 : 1 / (2 * Real.pi) * (2 * Real.pi * (1 - t)) = 1 - t := by
      field_simp
    rw [hid]
    linarith

/-- C6: with `dead_zone = 0.05` the effective Stanley lateral error is the
raw error times the dead-zone weight `w`, where `w = 0` for `|raw| ≤ 0.05`,
`w = 1` for `|raw| ≥ 0.10`, `w` is strictly between 0 and 1 for `|raw|`
strictly between 0.05 and 0.10, and `w = 1/2` at `|raw| = 0.075`. -/
theorem stanley_dead_zone_weight (raw : ℝ) :
    (Stanley_effectiveError (1/20) raw = raw * Stanley_deadZoneWeight (1/20) raw) ∧
    (|raw| ≤ 1/20 → Stanley_deadZoneWeight (1/20) raw = 0) ∧
    (1/10 ≤ |raw| → Stanley_deadZoneWeight (1/20) raw = 1) ∧
    (1/20 < |raw| → |raw| < 1/10 →
      0 < Stanley_deadZoneWeight (1/20) raw ∧ Stanley_deadZoneWeight (1/20) raw < 1) ∧
    Stanley_deadZoneWeight (1/20) (3/40) = 1/2 := by
  have hdz : ((1:ℝ)/20 > 0) := by norm_num
  refine ⟨rfl, ?_, ?_, ?_, ?_⟩
  · intro h
    unfold Stanley_deadZoneWeight chSineStep
    rw [if_pos hdz, if_pos h]
  · intro h
    unfold Stanley_deadZoneWeight chSineStep
    rw [if_pos hdz, if_neg (by push_neg; linarith), if_pos (by linarith)]
  · intro h1 h2
    unfold Stanley_deadZoneWeight chSineStep
    rw [if_pos hdz, if_neg (by push_neg; linarith), if_neg (by push_neg; linarith)]
    have harg : 2 * Real.pi * (|raw| - 1/20) / (2 * (1/20) - 1/20) =
        2 * Real.pi * (20 * |raw| - 1) := by
      field_simp
      ring
    have hE : (0:ℝ) + (1 - 0) * ((|raw| - 1/20) / (2 * (1/20) - 1/20)) -
        (1 - 0) / (2 * Real.pi) * Real.sin (2 * Real.pi * (20 * |raw| - 1)) =
        (20 * |raw| - 1) - 1 / (2 * Real.pi) *
          Real.sin (2 * Real.pi * (20 * |raw| - 1)) := by
      have hπ := Real.pi_ne_zero
      field_simp
      ring
    rw [harg, hE]
    exact sinStepBounds (20 * |raw| - 1) (by linarith) (by linarith)
  · have habs : |(3:ℝ)/40| = 3/40 := by
      rw [abs_of_pos]
      norm_num
    unfold Stanley_deadZoneWeight chSineStep
    rw [if_pos hdz, habs, if_neg (by norm_num), if_neg (by norm_num)]
    have harg : 2 * Real.pi * ((3:ℝ)/40 - 1/20) / (2 * (1/20) - 1/20) = Real.pi := by
      field_simp
      ring
    rw [harg, Real.sin_pi]
    norm_num

/-- Witness for C6: at the raw error 3/40 (= 0.075) the hypotheses of the
strict-intermediacy part hold and the weight is strictly between 0 and 1. -/
theorem stanley_dead_zone_weight_witness :
    ((1:ℝ)/20 < |(3:ℝ)/40| ∧ |(3:ℝ)/40| < 1/10) ∧
    (0 < Stanley_deadZoneWeight (1/20) (3/40) ∧
      Stanley_deadZoneWeight (1/20) (3/40) < 1) := by
  have h1 : (1:ℝ)/20 < |(3:ℝ)/40| := by
    rw [abs_of_pos] <;> norm_num
  have h2 : |(3:ℝ)/40| < 1/10 := by
    rw [abs_of_pos] <;> norm_num
  exact ⟨⟨h1, h2⟩, (stanley_dead_zone_weight (3/40)).2.2.2.1 h1 h2⟩

/-- C7 (amended): in the SR variant with zero steering-angle state (and any
`Kug`), the sentinel computed by `Advance` is the vehicle position translated
by `max(speed, umin) * Tp` along the vehicle forward axis — a pure
straight-line projection with no arc rotation term, but with the speed
clamped below by the minimum speed `umin`. -/
theorem sr_sentinel_straight_projection (s : SRState) (veh : VehicleState)
    (step : ℝ) (hdelta : s.m_delta = 0) :
    (SR_Advance s veh step).1.m_sentinel =
      veh.pos + (max veh.speed s.m_umin * s.m_Tp) • veh.xAxis := by
  have hmax : (if veh.speed > s.m_umin then veh.speed else s.m_umin) =
      max veh.speed s.m_umin := by
    split_ifs with h
    · exact (max_eq_left h.le).symm
    · exact (max_eq_right (not_lt.mp h)).symm
  simp only [SR_Advance]
  unfold SR_sentinel
  rw [if_pos hdelta, hmax]
  unfold vehTransform worldForward
  ext <;> simp <;> ring

/-- The two-point path used by the C7 input. -/
def srPath : List Vec3 := [⟨0, 5, 0⟩, ⟨100, 5, 0⟩]

/-- The SR controller used by the C7 input: fresh construction over the
two-point path (so `delta = 0`, `Tp = 0.5`, `umin = 2`). -/
def srC7 : SRState := mkChPathSteeringControllerSR srPath false 1 2

/-- Counterexample for C7: a freshly constructed SR controller on a standing
vehicle (`speed = 0 < umin = 2`, `delta = 0`): the sentinel computed by
`Advance` is `(1,0,0)` (distance `umin * Tp = 1` ahead), while the claimed
`vehicle_position + speed*Tp*forward` is the origin. -/
theorem sr_sentinel_not_speed_projection :
    (SR_Advance srC7 vehAtOrigin 1).1.m_sentinel = ⟨1, 0, 0⟩ ∧
    vehAtOrigin.pos + (vehAtOrigin.speed * srC7.m_Tp) • vehAtOrigin.xAxis =
      (⟨0, 0, 0⟩ : Vec3) ∧
    (⟨1, 0, 0⟩ : Vec3) ≠ ⟨0, 0, 0⟩ := by
  refine ⟨?_, ?_, ?_⟩
  · simp only [SR_Advance]
    unfold SR_sentinel
    rw [if_pos (by norm_num [srC7, mkChPathSteeringControllerSR] : srC7.m_delta = 0)]
    rw [if_neg (by norm_num [srC7, mkChPathSteeringControllerSR, vehAtOrigin] :
      ¬ vehAtOrigin.speed > srC7.m_umin)]
    unfold vehTransform worldForward
    simp only [srC7, mkChPathSteeringControllerSR, vehAtOrigin]
    ext <;> simp <;> norm_num
  · simp only [srC7, mkChPathSteeringControllerSR, vehAtOrigin]
    ext <;> simp
  · intro h
    have := congrArg Vec3.x h
    norm_num at this

/-- Witness for C7 at a concrete input with `delta = 0`. -/
theorem sr_sentinel_straight_projection_witness :
    srC7.m_delta = 0 ∧
    (SR_Advance srC7 vehAtOrigin 1).1.m_sentinel =
      vehAtOrigin.pos + (max vehAtOrigin.speed srC7.m_umin * srC7.m_Tp) • vehAtOrigin.xAxis :=
  ⟨by norm_num [srC7, mkChPathSteeringControllerSR],
   sr_sentinel_straight_projection srC7 vehAtOrigin 1
     (by norm_num [srC7, mkChPathSteeringControllerSR])⟩

/-- C10 (amended): the stored previous output `m_res` is 0 at construction
and lies in [-1, 1] after every `Advance` call; consequently — provided the
maximum wheel turn angle lies in [0, π/2] — the Ackermann feedback channel
`sin(m_res * max_wheel_turn_angle)` is bounded in magnitude by
`sin(max_wheel_turn_angle)`.  Without that proviso the bound fails (see the
counterexample). -/
theorem xt_res_invariant_and_ackermann_bound (θ : ℝ) (trk : Vec3 → Frame × ℝ)
    (s t : XTState) (veh : VehicleState) (step : ℝ)
    (hθ0 : 0 ≤ t.m_max_wheel_turn_angle)
    (hθ1 : t.m_max_wheel_turn_angle ≤ Real.pi / 2)
    (hres : -1 ≤ t.m_res ∧ t.m_res ≤ 1) :
    (mkChPathSteeringControllerXT θ).m_res = 0 ∧
    (-1 ≤ (XT_Advance trk s veh step).1.m_res ∧
      (XT_Advance trk s veh step).1.m_res ≤ 1) ∧
    |XT_CalcAckermannAngle t| ≤ Real.sin t.m_max_wheel_turn_angle := by
  refine ⟨rfl, ?_, ?_⟩
  · obtain ⟨hstored, res, hres'⟩ := XT_Advance_res_shape trk s veh step
    rw [hstored, hres']
    exact abs_le.mp (abs_XT_counterSteerClamp_le_one _ _)
  · unfold XT_CalcAckermannAngle
    have hπ := Real.pi_pos
    have h1 : |t.m_res * t.m_max_wheel_turn_angle| ≤ t.m_max_wheel_turn_angle := by
      rw [abs_mul, abs_of_nonneg hθ0]
      have habs : |t.m_res| ≤ 1 := abs_le.mpr hres
      nlinarith [abs_nonneg t.m_res]
    have key : ∀ y : ℝ, 0 ≤ y → y ≤ t.m_max_wheel_turn_angle →
        Real.sin y ≤ Real.sin t.m_max_wheel_turn_angle := by
      intro y hy0 hyθ
      exact Real.strictMonoOn_sin.monotoneOn (Set.mem_Icc.mpr ⟨by linarith, by linarith⟩)
        (Set.mem_Icc.mpr ⟨by linarith, hθ1⟩) hyθ
    obtain ⟨hlo, hhi⟩ := abs_le.mp h1
    rcases le_or_lt 0 (t.m_res * t.m_max_wheel_turn_angle) with h | h
    · rw [abs_of_nonneg (Real.sin_nonneg_of_nonneg_of_le_pi h (by linarith))]
      exact key _ h hhi
    · have hsin : Real.sin (t.m_res * t.m_max_wheel_turn_angle) ≤ 0 :=
        Real.sin_nonpos_of_nonnpos_of_neg_pi_le (le_of_lt h) (by linarith)
      rw [abs_of_nonpos hsin, ← Real.sin_neg]
      exact key _ (by linarith) (by linarith)

/-- Witness for C10 at concrete inputs. -/
theorem xt_res_invariant_and_ackermann_bound_witness :
    ((0:ℝ) ≤ (mkChPathSteeringControllerXT 1).m_max_wheel_turn_angle ∧
     (mkChPathSteeringControllerXT 1).m_max_wheel_turn_angle ≤ Real.pi / 2 ∧
     -1 ≤ (mkChPathSteeringControllerXT 1).m_res ∧
     (mkChPathSteeringControllerXT 1).m_res ≤ 1) ∧
    ((mkChPathSteeringControllerXT 1).m_res = 0 ∧
     (-1 ≤ (XT_Advance trkZero (mkChPathSteeringControllerXT 1) vehAtOrigin 1).1.m_res ∧
       (XT_Advance trkZero (mkChPathSteeringControllerXT 1) vehAtOrigin 1).1.m_res ≤ 1) ∧
     |XT_CalcAckermannAngle (mkChPathSteeringControllerXT 1)| ≤
       Real.sin (mkChPathSteeringControllerXT 1).m_max_wheel_turn_angle) := by
  have hm : (mkChPathSteeringControllerXT 1).m_max_wheel_turn_angle = 1 := by
    norm_num [mkChPathSteeringControllerXT]
  have h0 : (0:ℝ) ≤ (mkChPathSteeringControllerXT 1).m_max_wheel_turn_angle := by
    rw [hm]; norm_num
  have h1 : (mkChPathSteeringControllerXT 1).m_max_wheel_turn_angle ≤ Real.pi / 2 := by
    rw [hm]; linarith [Real.pi_gt_three]
  have h2 : -1 ≤ (mkChPathSteeringControllerXT 1).m_res ∧
      (mkChPathSteeringControllerXT 1).m_res ≤ 1 := by
    norm_num [mkChPathSteeringControllerXT]
  exact ⟨⟨h0, h1, h2.1, h2.2⟩,
    xt_res_invariant_and_ackermann_bound 1 trkZero (mkChPathSteeringControllerXT 1)
      (mkChPathSteeringControllerXT 1) vehAtOrigin 1 h0 h1 h2⟩

/-- The tracker used by the C10 counterexample: closest point `(1, 25/32, 0)`
with the identity TNB frame and zero curvature (a straight path segment a
bit to the left of the sentinel). -/
def xtTrkC10 : Vec3 → Frame × ℝ :=
  fun _ => (⟨⟨1, 25/32, 0⟩, ⟨1, 0, 0⟩, ⟨0, 1, 0⟩, ⟨0, 0, 1⟩⟩, 0)

/-- The vehicle used by the C10 counterexample: at the origin, identity
rotation, moving forward at unit speed. -/
def xtVehC10 : VehicleState := ⟨0, ⟨1, 0, 0⟩, ⟨0, 1, 0⟩, ⟨0, 0, 1⟩, 1, ⟨1, 0, 0⟩⟩

/-- The XT controller used by the C10 counterexample: freshly constructed
with maximum wheel turn angle 3 (accepted, since only positivity is checked)
and look-ahead distance 1. -/
def xtC10 : XTState := { mkChPathSteeringControllerXT 3 with m_dist := 1 }

/-- Counterexample for C10: after one genuine `Advance` from the fresh state
(which stores `m_res = 1/2 ∈ [-1,1]`), the Ackermann feedback channel of the
next step is `sin(3/2) ≈ 0.997`, which exceeds `sin(3) ≈ 0.141` — the claimed
bound `sin(max_wheel_turn_angle)` fails for turn angles above π/2. -/
theorem xt_ackermann_exceeds_sin_max :
    (XT_Advance xtTrkC10 xtC10 xtVehC10 (1/10)).1.m_res = 1/2 ∧
    XT_CalcAckermannAngle (XT_Advance xtTrkC10 xtC10 xtVehC10 (1/10)).1 =
      Real.sin (3/2) ∧
    ¬ (|XT_CalcAckermannAngle (XT_Advance xtTrkC10 xtC10 xtVehC10 (1/10)).1| ≤
        Real.sin (XT_Advance xtTrkC10 xtC10 xtVehC10 (1/10)).1.m_max_wheel_turn_angle) := by
  have hsy : Real.sqrt (625/1024 : ℝ) = 25/32 :=
    real_sqrt_val _ _ (by norm_num) (by norm_num)
  have hres12 : (XT_Advance xtTrkC10 xtC10 xtVehC10 (1/10)).1.m_res = 1/2 := by
    norm_num [XT_Advance, xtC10, mkChPathSteeringControllerXT, xtVehC10, xtTrkC10,
      vehTransform, worldForward, worldVertical, lateralError, project, vdot, vcross, vlen,
      chSignum, XT_CalcHeadingError, vnormalize, height, XT_CalcAckermannAngle,
      XT_CalcCurvatureCode, XT_blend, XT_counterSteerClamp, chClamp,
      PT1config, PT1filter, PDT1config, PDT1filter, hsy,
      Real.sqrt_one, Real.sqrt_zero, Real.arcsin_zero, Real.sin_zero]
  have hmax3 : (XT_Advance xtTrkC10 xtC10 xtVehC10 (1/10)).1.m_max_wheel_turn_angle = 3 := by
    norm_num [XT_Advance, xtC10, mkChPathSteeringControllerXT, xtVehC10, xtTrkC10]
  have hack : XT_CalcAckermannAngle (XT_Advance xtTrkC10 xtC10 xtVehC10 (1/10)).1 =
      Real.sin (3/2) := by
    unfold XT_CalcAckermannAngle
    rw [hres12, hmax3]
    norm_num
  refine ⟨hres12, hack, ?_⟩
  rw [hack, hmax3]
  push_neg
  have hpos : 0 < Real.sin (3/2) :=
    Real.sin_pos_of_pos_of_lt_pi (by norm_num) (by linarith [Real.pi_gt_three])
  rw [abs_of_pos hpos]
  have h3 : Real.sin 3 = Real.sin (Real.pi - 3) := (Real.sin_pi_sub 3).symm
  rw [h3]
  exact Real.strictMonoOn_sin
    (Set.mem_Icc.mpr ⟨by linarith [Real.pi_gt_three], by linarith [Real.pi_lt_d2]⟩)
    (Set.mem_Icc.mpr ⟨by linarith [Real.pi_gt_three], by linarith [Real.pi_gt_three]⟩)
    (by linarith [Real.pi_lt_d2])

/-- C8: evaluation of the file constructors on an absent or malformed (null)
configuration document.  The constructor does return silently (it is a total
function, no error path), but the base constructor leaves `Kp/Ki/Kd/dist`
holding their indeterminate pre-construction values (here 7, 8, 9, 10) rather
than the constructor defaults (all 0, compare the default constructor), and
the SR file constructor likewise leaves `Klat/Kug/Tp` indeterminate (here
7, 8, 9; the non-file constructor's defaults are 0, 0, 1/2). -/
theorem ctor_null_doc_leaves_fields_indeterminate :
    (mkChSteeringControllerFromFile none 7 8 9 10).m_Kp = 7 ∧
    (mkChSteeringControllerFromFile none 7 8 9 10).m_Ki = 8 ∧
    (mkChSteeringControllerFromFile none 7 8 9 10).m_Kd = 9 ∧
    (mkChSteeringControllerFromFile none 7 8 9 10).m_dist = 10 ∧
    mkChSteeringController.m_Kp = 0 ∧ mkChSteeringController.m_dist = 0 ∧
    (mkChSteeringControllerFromFile none 7 8 9 10).m_Kp ≠ mkChSteeringController.m_Kp ∧
    (mkChPathSteeringControllerSRFromFile srPath false 1 2 none 7 8 9).m_Klat = 7 ∧
    (mkChPathSteeringControllerSRFromFile srPath false 1 2 none 7 8 9).m_Kug = 8 ∧
    (mkChPathSteeringControllerSRFromFile srPath false 1 2 none 7 8 9).m_Tp = 9 ∧
    (mkChPathSteeringControllerSR srPath false 1 2).m_Tp = 1/2 ∧
    (mkChPathSteeringControllerSRFromFile srPath false 1 2 none 7 8 9).m_Tp ≠
      (mkChPathSteeringControllerSR srPath false 1 2).m_Tp := by
  norm_num [mkChSteeringControllerFromFile, mkChSteeringController,
    mkChPathSteeringControllerSRFromFile, mkChPathSteeringControllerSR]

end

end ChronoVehicle
